import Mathlib

/-!
Shallow embedding of the wholesale e-commerce backend
(`main.py`, `models.py`, `schemas.py`, `email_utils.py`).

Modelling conventions:
* SQL `Float` columns are modelled as `ℚ`; every claim about them concerns
  equalities between stored values and sums of stored values.
* SQL `DateTime` values are modelled as `Nat` ticks.
* Autoincrement primary keys are `max existing id + 1`; surrogate keys that
  the handlers never read back (tier, image and order-item row ids) are
  omitted from the row structures.
* A nullable text column is `Option String`; Python truthiness on such a
  value is `pyTruthy`.
* Request handlers become pure functions from the request payload and the
  database state to a result paired with the new database state.
-/

namespace Wholesale

/-- Outcome of a request handler: a successful value, an `HTTPException`
carrying a status code and detail string, or an uncaught Python exception
(which the framework surfaces as a generic 500 response). -/
inductive HttpResult (α : Type) where
  | ok (value : α)
  | httpError (code : Nat) (detail : String)
  | pyException (kind : String)
deriving Repr, DecidableEq

/-- Python truthiness of an optional string: `None` and the empty string are
falsy, every other string is truthy. -/
def pyTruthy : Option String → Bool
  | none => false
  | some s => s != ""

/-- Model of `models.Product`. -/
structure Product where
  id : Nat
  title : String
  sku : String
  gender : String
  category : String
  color : String
  description : Option String
deriving Repr, DecidableEq, Inhabited

/-- Model of `models.PricingTier` (surrogate row id omitted). -/
structure PricingTier where
  product_id : Nat
  min_quantity : Int
  price : ℚ
deriving Repr, DecidableEq

/-- Model of `models.ProductImage` (surrogate row id omitted). -/
structure ProductImage where
  product_id : Nat
  image_url : String
  color : String
deriving Repr, DecidableEq

/-- Model of `models.Review`. -/
structure Review where
  id : Nat
  product_id : Nat
  email : Option String
  rating : Int
  text : Option String
  user_name : String
  verified : Bool
  created_at : Nat
deriving Repr, DecidableEq

/-- The product-side tables of the store. -/
structure ProductDb where
  products : List Product
  tiers : List PricingTier
  product_images : List ProductImage
  reviews : List Review
deriving Repr, DecidableEq

/-- Next autoincrement product id. -/
def nextProductId (db : ProductDb) : Nat :=
  (db.products.map Product.id).foldl max 0 + 1

/-- Extension of a filename as `os.path.splitext` computes it for ordinary
names: the suffix starting at the last dot, or the empty string when there
is no dot.  (The corner case of a leading dot in the basename is not
reproduced; no claim depends on it.) -/
def extAfterLastDot : List Char → Option (List Char)
  | [] => none
  | c :: cs =>
    match extAfterLastDot cs with
    | some e => some e
    | none => if c = '.' then some ('.' :: cs) else none

/-- String-level wrapper for `extAfterLastDot`. -/
def splitextExt (filename : String) : String :=
  match extAfterLastDot filename.toList with
  | some e => String.mk e
  | none => ""

/-- The tier-insertion loop of `create_product` (main.py lines 85-87):
`for i in range(len(min_quantities)): ... prices[i]`.  Walking the two
lists positionally models the indexing; `none` models the `IndexError`
raised when `min_quantities` is longer than `prices`.  When `prices` is
longer, the surplus prices are silently dropped, exactly as the loop does. -/
def buildTiers (pid : Nat) : List Int → List ℚ → Option (List PricingTier)
  | [], _ => some []
  | q :: qs, p :: ps => (buildTiers pid qs ps).map (fun rest => ⟨pid, q, p⟩ :: rest)
  | _ :: _, [] => none

/-- The image-saving loop of `create_product` (main.py lines 90-108): the
i-th uploaded file is stored under `sku_color_uuid` plus the original
extension, and one `ProductImage` row records the URL and the color tag.
`uuids` supplies the tokens produced by `uuid.uuid4()`. -/
def buildImageRows (pid : Nat) (sku : String)
    (images imageColors uuids : List String) : List ProductImage :=
  (images.zip (imageColors.zip uuids)).map fun iu =>
    { product_id := pid
      image_url := "/static/images/" ++ sku ++ "_" ++ iu.2.1 ++ "_" ++ iu.2.2
          ++ splitextExt iu.1
      color := iu.2.1 }

/-- The plain multipart form fields of `POST /products/`. -/
structure ProductForm where
  title : String
  sku : String
  gender : String
  category : String
  color : String
  description : Option String
deriving Repr, DecidableEq

/-- Model of `create_product` (main.py lines 49-112), entered after the
comma-separated `min_quantities` and `prices` strings have parsed
successfully (a parse failure returns 422 before any of the code below
runs), so the parsed lists are taken as arguments.  Commit points follow
the source: the product row is committed on line 82, the tier and image
rows only by the commit on line 110, so an exception raised between the
two commits leaves the product row persisted and discards the pending
tier adds. -/
def create_product (form : ProductForm) (min_quantities : List Int)
    (prices : List ℚ) (image_colors : List String) (images : List String)
    (uuids : List String) (db : ProductDb) : HttpResult Product × ProductDb :=
  if images.length ≠ image_colors.length then
    (.httpError 400 ("You uploaded " ++ toString images.length
        ++ " images but provided " ++ toString image_colors.length
        ++ " color names. They must match."), db)
  else if db.products.any (fun p => p.sku == form.sku) then
    (.httpError 400 "SKU already registered", db)
  else
    let pid := nextProductId db
    let prod : Product :=
      { id := pid, title := form.title, sku := form.sku, gender := form.gender,
        category := form.category, color := form.color,
        description := form.description }
    let committed : ProductDb := { db with products := db.products ++ [prod] }
    match buildTiers pid min_quantities prices with
    | none => (.pyException "IndexError", committed)
    | some newTiers =>
        (.ok prod,
         { committed with
             tiers := committed.tiers ++ newTiers
             product_images := committed.product_images
               ++ buildImageRows pid form.sku images image_colors uuids })

/-- Model of `read_specific_products` (main.py lines 131-146): each filter
is added to the query only when the query parameter is truthy
(`if gender:` and `if category:`). -/
def read_specific_products (gender category : Option String)
    (db : ProductDb) : List Product :=
  let q1 := db.products
  let q2 := if pyTruthy gender
    then q1.filter (fun p => p.gender == gender.getD "") else q1
  let q3 := if pyTruthy category
    then q2.filter (fun p => p.category == category.getD "") else q2
  q3

/-- Tokens of a SQL LIKE pattern: a `%` wildcard, a `_` wildcard, or a
literal character. -/
inductive LikeTok where
  | anyRun
  | anyOne
  | lit (c : Char)
deriving Repr, DecidableEq

/-- Tokenizer for a LIKE pattern with escape character backslash, as in
`ilike(search_pattern, escape=backslash)` on main.py line 333: the escape
character makes the immediately following pattern character literal. -/
def lexLikePattern : List Char → List LikeTok
  | [] => []
  | c :: ps =>
    if c = '\\' then
      match ps with
      | [] => [LikeTok.lit '\\']
      | d :: ps2 => LikeTok.lit d :: lexLikePattern ps2
    else if c = '%' then LikeTok.anyRun :: lexLikePattern ps
    else if c = '_' then LikeTok.anyOne :: lexLikePattern ps
    else LikeTok.lit c :: lexLikePattern ps

/-- Matching a tokenized LIKE pattern against a list of characters.
A `%` token matches any (possibly empty) run, so the rest of the pattern
may resume at any suffix; literal characters are compared
case-insensitively, which is what `ilike` adds over `like`. -/
def likeMatch : List LikeTok → List Char → Bool
  | [], s => s.isEmpty
  | LikeTok.anyRun :: ts, s => s.tails.any (fun suf => likeMatch ts suf)
  | LikeTok.anyOne :: _, [] => false
  | LikeTok.anyOne :: ts, _ :: s2 => likeMatch ts s2
  | LikeTok.lit _ :: _, [] => false
  | LikeTok.lit p :: ts, c :: s2 => (p.toLower == c.toLower) && likeMatch ts s2

/-- The wildcard escaping of `search_product_by_name` (main.py line 326):
each `%` or `_` of the raw search string gains a preceding backslash;
every other character, backslashes included, is left untouched.  This is
the effect of the two sequential single-character `replace` calls. -/
def escapeWildcards : List Char → List Char
  | [] => []
  | c :: cs =>
    if c = '%' ∨ c = '_' then '\\' :: c :: escapeWildcards cs
    else c :: escapeWildcards cs

/-- The full pattern built on main.py line 327: a `%` on either side of the
escaped search string. -/
def searchLikePattern (product_name : String) : List Char :=
  '%' :: (escapeWildcards product_name.toList ++ ['%'])

/-- The `title ILIKE pattern ESCAPE` filter of main.py line 333. -/
def titleMatches (product_name : String) (title : String) : Bool :=
  likeMatch (lexLikePattern (searchLikePattern product_name)) title.toList

/-- Model of `search_product_by_name` (main.py lines 319-336); the result
count is capped by `limit`, which defaults to 50. -/
def search_product_by_name (product_name : String) (db : ProductDb)
    (limit : Nat := 50) : List Product :=
  (db.products.filter (fun p => titleMatches product_name p.title)).take limit

/-- Model of `schemas.ReviewCreate` (schemas.py lines 65-74).  The `country`
field is commented out in the source, so the schema genuinely does not
define it. -/
structure ReviewCreate where
  rating : Int
  text : Option String
  email : String
  user_name : String
deriving Repr, DecidableEq

/-- Model of `create_review` (main.py lines 427-449).  After the
product-existence check the handler evaluates `review.country` while
building the `models.Review` row; `ReviewCreate` defines no such attribute
(schemas.py line 70 comments it out), so every request that reaches this
point raises `AttributeError` before `db.add` runs, and no review row is
ever inserted. -/
def create_review (product_id : Nat) (review : ReviewCreate)
    (db : ProductDb) : HttpResult Review × ProductDb :=
  if db.products.any (fun p => p.id == product_id) then
    (.pyException "AttributeError", db)
  else
    (.httpError 404 "Product not found", db)

/-- Model of `models.Order`. -/
structure Order where
  id : Nat
  product_sku : String
  product_title : String
  total_quantity : Int
  unit_price_tier : ℚ
  grand_total : ℚ
  email_or_phone : String
  country : String
  first_name : String
  last_name : String
  address : String
  city : String
  postal_code : Option String
  phone : Option String
  shipping_method : String
  status : String
  created_at : Nat
deriving Repr, DecidableEq, Inhabited

/-- Model of `models.OrderItem` (surrogate row id omitted). -/
structure OrderItem where
  order_id : Nat
  color_id : String
  color_name : String
  size : String
  quantity : Int
deriving Repr, DecidableEq

/-- The order-side tables of the store. -/
structure OrderDb where
  orders : List Order
  order_items : List OrderItem
deriving Repr, DecidableEq

/-- Model of `schemas.CartItemIn`. -/
structure CartItemIn where
  colorId : String
  size : String
  qty : Int
deriving Repr, DecidableEq

/-- The entries of the free-form `productDetails` dict that `submit_order`
reads: the `sku` and `title` keys and the `colors` list of id/name
objects. -/
structure ProductDetails where
  sku : String
  title : String
  colors : List (String × String)
deriving Repr, DecidableEq

/-- Model of `schemas.OrderDetailsIn`. -/
structure OrderDetailsIn where
  cartItems : List CartItemIn
  totalQuantity : Int
  subtotal : ℚ
  unitPrice : ℚ
  colorNumberMap : List (String × Int)
  productDetails : ProductDetails
deriving Repr, DecidableEq

/-- Model of `schemas.CustomerInfoIn`. -/
structure CustomerInfoIn where
  emailOrPhone : String
  country : String
  firstName : String
  lastName : String
  address : String
  city : String
  postalCode : Option String
  phone : Option String
  saveInfo : Bool
  emailSubscription : Bool
  shippingMethod : String
deriving Repr, DecidableEq

/-- Model of `schemas.OrderSubmissionRequest`. -/
structure OrderSubmissionRequest where
  orderDetails : OrderDetailsIn
  customerInfo : CustomerInfoIn
deriving Repr, DecidableEq

/-- Lookup in the dict built by the comprehension on main.py line 173:
a Python dict comprehension keeps the last binding of a duplicated key. -/
def dictLast (pairs : List (String × String)) (k : String) : Option String :=
  (pairs.reverse.find? (fun c => c.1 == k)).map Prod.snd

/-- The lookup `color_map.get(item.colorId, item.colorId)` of main.py
line 204: the mapped display name when the id is a key of the map, the raw
id otherwise. -/
def colorMapGet (colors : List (String × String)) (k : String) : String :=
  (dictLast colors k).getD k

/-- Next autoincrement order id. -/
def nextOrderId (db : OrderDb) : Nat :=
  (db.orders.map Order.id).foldl max 0 + 1

/-- Model of `submit_order` (main.py lines 163-218).  `now` stands for the
insert timestamp assigned by the column default `func.now()`.  The handler
always inserts exactly one order row with status fixed at the constant
string literal of line 195, and one item row per cart line. -/
def submit_order (request : OrderSubmissionRequest) (now : Nat)
    (db : OrderDb) : Order × OrderDb :=
  let customer_info := request.customerInfo
  let order_details := request.orderDetails
  let colors := order_details.productDetails.colors
  let oid := nextOrderId db
  let db_order : Order :=
    { id := oid
      product_sku := order_details.productDetails.sku
      product_title := order_details.productDetails.title
      total_quantity := order_details.totalQuantity
      unit_price_tier := order_details.unitPrice
      grand_total := order_details.subtotal
      email_or_phone := customer_info.emailOrPhone
      first_name := customer_info.firstName
      last_name := customer_info.lastName
      address := customer_info.address
      city := customer_info.city
      country := customer_info.country
      postal_code := customer_info.postalCode
      phone := customer_info.phone
      shipping_method := customer_info.shippingMethod
      status := "Confirmed"
      created_at := now }
  let newItems := order_details.cartItems.map fun item =>
    { order_id := oid
      color_id := item.colorId
      color_name := colorMapGet colors item.colorId
      size := item.size
      quantity := item.qty : OrderItem }
  (db_order,
   { orders := db.orders ++ [db_order],
     order_items := db.order_items ++ newItems })

/-- The item rows the cart loop of `submit_order` inserts, spelled exactly
as the loop builds them. -/
def submittedRows (request : OrderSubmissionRequest) (db : OrderDb) :
    List OrderItem :=
  request.orderDetails.cartItems.map fun item =>
    { order_id := nextOrderId db
      color_id := item.colorId
      color_name := colorMapGet request.orderDetails.productDetails.colors
        item.colorId
      size := item.size
      quantity := item.qty }

/-- Descending order on the order-creation timestamp, the relation behind
`order_by(models.Order.created_at.desc())`. -/
def createdDescRel (a b : Order) : Prop := b.created_at ≤ a.created_at

instance : DecidableRel createdDescRel := fun a b =>
  inferInstanceAs (Decidable (b.created_at ≤ a.created_at))

instance : IsTotal Order createdDescRel :=
  ⟨fun a b => le_total b.created_at a.created_at⟩

instance : IsTrans Order createdDescRel :=
  ⟨fun _ _ _ h1 h2 => le_trans h2 h1⟩

/-- Python `f-string` zero padding of a non-negative integer to width 6:
the decimal digits left-padded with zeros up to length 6. -/
def zeroPad6 (n : Nat) : String :=
  let s := Nat.repr n
  String.mk (List.replicate (6 - s.length) '0') ++ s

/-- The string attached on main.py line 232: `INV-` followed by the order
id zero-padded to width 6. -/
def invoiceOf (o : Order) : String := "INV-" ++ zeroPad6 o.id

/-- Model of `schemas.OrderItemOut` (schemas.py lines 140-147). -/
structure OrderItemOut where
  color_id : String
  color_name : String
  size : String
  quantity : Int
deriving Repr, DecidableEq

/-- Model of `schemas.OrderOut` (schemas.py lines 149-170).  These are all
the fields the response model declares; in particular there is no
`invoice` field. -/
structure OrderOut where
  id : Nat
  product_sku : String
  product_title : String
  total_quantity : Int
  unit_price_tier : ℚ
  grand_total : ℚ
  email_or_phone : String
  first_name : String
  last_name : String
  address : String
  city : String
  country : String
  status : String
  created_at : Nat
  items : List OrderItemOut
deriving Repr, DecidableEq

/-- Serialization of one ORM order through `OrderOut` with
`from_attributes`: exactly the declared fields are read off the object;
any extra Python attribute set on the object is ignored. -/
def toOrderOut (db : OrderDb) (o : Order) : OrderOut :=
  { id := o.id
    product_sku := o.product_sku
    product_title := o.product_title
    total_quantity := o.total_quantity
    unit_price_tier := o.unit_price_tier
    grand_total := o.grand_total
    email_or_phone := o.email_or_phone
    first_name := o.first_name
    last_name := o.last_name
    address := o.address
    city := o.city
    country := o.country
    status := o.status
    created_at := o.created_at
    items := (db.order_items.filter (fun it => it.order_id == o.id)).map
      fun it =>
        { color_id := it.color_id, color_name := it.color_name,
          size := it.size, quantity := it.quantity } }

/-- Model of `read_orders` (main.py lines 221-233) before serialization:
the ORM objects newest first, each paired with the string the handler
attaches to the object as an in-memory `invoice` attribute. -/
def read_orders_handler (db : OrderDb) : List (Order × String) :=
  (db.orders.insertionSort createdDescRel).map (fun o => (o, invoiceOf o))

/-- The serialized response of `GET /orders/`: every handler object passes
through `response_model=List[OrderOut]`, and `OrderOut` declares no
`invoice` field, so the attached attribute is dropped. -/
def read_orders_response (db : OrderDb) : List OrderOut :=
  (read_orders_handler db).map (fun p => toOrderOut db p.1)

/-- In-place mutation of the first row with the given id, which is how
`query(...).filter(...).first()` followed by an attribute assignment and a
commit acts on the table. -/
def setStatusFirst (order_id : Nat) (new_status : String) :
    List Order → List Order
  | [] => []
  | o :: os =>
    if o.id == order_id then { o with status := new_status } :: os
    else o :: setStatusFirst order_id new_status os

/-- The JSON body `update_order_status` returns on success. -/
structure StatusUpdateResponse where
  message : String
  id : Nat
  status : String
deriving Repr, DecidableEq

/-- Model of `update_order_status` (main.py lines 302-315). -/
def update_order_status (order_id : Nat) (new_status : String)
    (db : OrderDb) : HttpResult StatusUpdateResponse × OrderDb :=
  if db.orders.any (fun o => o.id == order_id) then
    (.ok { message := "Status updated successfully", id := order_id,
           status := new_status },
     { db with orders := setStatusFirst order_id new_status db.orders })
  else
    (.httpError 404 "Order not found", db)

/-- Model of `schemas.CustomerOut`. -/
structure CustomerOut where
  id : String
  name : String
  email : Option String
  phone : Option String
  country : String
  city : String
  totalSpent : ℚ
  lastOrder : Nat
deriving Repr, DecidableEq

/-- The rows of one `email_or_phone` group of the `GROUP BY` subquery. -/
def customerGroup (db : OrderDb) (k : String) : List Order :=
  db.orders.filter (fun o => o.email_or_phone == k)

/-- The aggregate `func.max(models.Order.id)` over one group. -/
def latestOrderId (db : OrderDb) (k : String) : Nat :=
  ((customerGroup db k).map Order.id).foldl max 0

/-- The aggregate `func.sum(models.Order.grand_total)` over one group. -/
def groupTotalSpent (db : OrderDb) (k : String) : ℚ :=
  ((customerGroup db k).map Order.grand_total).sum

/-- The aggregate `func.max(models.Order.created_at)` over one group. -/
def groupLastOrder (db : OrderDb) (k : String) : Nat :=
  ((customerGroup db k).map Order.created_at).foldl max 0

/-- The display name of main.py lines 286-290: first and last name joined
and stripped, falling back to the identifier when the result is empty. -/
def customerName (row : Order) (k : String) : String :=
  let full_name := (row.first_name ++ " " ++ row.last_name).trim
  if full_name == "" then k else full_name

/-- The email classification of main.py lines 282-283: the identifier is an
email exactly when it contains an at sign. -/
def customerEmail (k : String) : Option String :=
  if k.contains '@' then some k else none

/-- The phone fallback chain of main.py line 284. -/
def customerPhone (row : Order) (k : String) : Option String :=
  if pyTruthy row.phone then row.phone
  else if k.contains '@' then none else some k

/-- One output row of the customer aggregation: the aggregates of the group
together with display fields read from the order row joined on
`id == max(id)` over the group (`find?` models the SQL join on the unique
primary key). -/
def customerEntry (db : OrderDb) (k : String) : CustomerOut :=
  let row := (db.orders.find? (fun o => o.id == latestOrderId db k)).getD
    default
  { id := k
    name := customerName row k
    email := customerEmail k
    phone := customerPhone row k
    country := row.country
    city := row.city
    totalSpent := groupTotalSpent db k
    lastOrder := groupLastOrder db k }

/-- The distinct `email_or_phone` identifiers, as `GROUP BY` groups them. -/
def customerKeys (db : OrderDb) : List String :=
  (db.orders.map Order.email_or_phone).dedup

/-- Descending order on the most-recent-order timestamp, the relation
behind `order_by(subquery.c.lastOrder.desc())`. -/
def lastOrderDescRel (a b : CustomerOut) : Prop := b.lastOrder ≤ a.lastOrder

instance : DecidableRel lastOrderDescRel := fun a b =>
  inferInstanceAs (Decidable (b.lastOrder ≤ a.lastOrder))

instance : IsTotal CustomerOut lastOrderDescRel :=
  ⟨fun a b => le_total b.lastOrder a.lastOrder⟩

instance : IsTrans CustomerOut lastOrderDescRel :=
  ⟨fun _ _ _ h1 h2 => le_trans h2 h1⟩

/-- Model of `read_customers` (main.py lines 240-299): one aggregated entry
per distinct identifier, ordered by the most recent order timestamp
descending. -/
def read_customers (db : OrderDb) : List CustomerOut :=
  ((customerKeys db).map (customerEntry db)).insertionSort lastOrderDescRel

/-- Model of `schemas.EmailRequest`. -/
structure EmailRequest where
  «to» : String
  subject : String
  body : String
deriving Repr, DecidableEq

/-- The dict returned by `email_utils.send_email`. -/
structure EmailResult where
  status : String
  message : String
deriving Repr, DecidableEq

/-- Outcome of the SMTP conversation inside `email_utils.send_email`:
either every step completes, or some step raises an exception carrying a
message. -/
inductive SmtpOutcome where
  | sent
  | raised (message : String)
deriving Repr, DecidableEq

/-- Model of `email_utils.send_email` (email_utils.py lines 6-26): the whole
body runs inside `try/except Exception`, so every transport outcome is
turned into a structured status/message result and no exception escapes. -/
def send_email («to» _subject _body : String) : SmtpOutcome → EmailResult
  | .sent => { status := "success", message := "Email sent to " ++ «to» }
  | .raised e => { status := "error", message := e }

/-- Model of `send_email_endpoint` (main.py lines 40-47). -/
def send_email_endpoint (email : EmailRequest) (outcome : SmtpOutcome) :
    HttpResult EmailResult :=
  let result := send_email email.to email.subject email.body outcome
  if result.status == "error" then .httpError 500 result.message
  else .ok result

/-! Concrete fixtures used by the closed theorems below. -/

/-- An empty product store. -/
def emptyProductDb : ProductDb := ⟨[], [], [], []⟩

/-- A product-creation form with a fresh sku. -/
def c1Form : ProductForm := ⟨"Tee", "SKU-1", "Men", "Shirts", "Blue", none⟩

/-- One persisted product row. -/
def c4Product : Product := ⟨1, "Tee", "SKU-1", "Men", "Shirts", "Blue", none⟩

/-- A product store holding exactly `c4Product`. -/
def c4Db : ProductDb := ⟨[c4Product], [], [], []⟩

/-- A schema-valid review payload whose rating lies outside the interval
from 1 to 5. -/
def c4Review : ReviewCreate := ⟨6, some "great", "a@b.c", "Jo"⟩

/-- One stored order row. -/
def c2Order : Order :=
  ⟨1, "SKU-1", "Tee", 3, 5, 15, "a@b.c", "PK", "Jo", "Doe", "Addr", "City",
   none, none, "Standard", "Confirmed", 100⟩

/-- An order store holding `c2Order` and its single line item. -/
def c2Db : OrderDb := ⟨[c2Order], [⟨1, "c1", "Blue", "M", 3⟩]⟩

/-- A product whose title contains a literal backslash. -/
def c6CexProduct : Product :=
  ⟨1, "back\\slash", "SKU-6", "Men", "Shirts", "Black", none⟩

/-- A product store holding exactly `c6CexProduct`. -/
def c6CexDb : ProductDb := ⟨[c6CexProduct], [], [], []⟩

/-- Two products, one of whose titles contains a literal percent sign. -/
def c6WitnessDb : ProductDb :=
  ⟨[⟨1, "T-Shirt 100% Cotton", "SKU-7", "Men", "Shirts", "White", none⟩,
    ⟨2, "Polo", "SKU-8", "Men", "Shirts", "Red", none⟩], [], [], []⟩

/-- Checkout-form data for the order-submission fixtures. -/
def fixtureCustomer : CustomerInfoIn :=
  ⟨"a@b.c", "PK", "Jo", "Doe", "Addr", "City", none, none, false, false,
   "Standard"⟩

/-- An order submission with one cart line whose color id is in the color
map and one whose id is not. -/
def c5Request : OrderSubmissionRequest :=
  { orderDetails :=
      { cartItems := [⟨"c1", "M", 2⟩, ⟨"c9", "L", 1⟩]
        totalQuantity := 3
        subtotal := 30
        unitPrice := 10
        colorNumberMap := []
        productDetails := ⟨"SKU-1", "Tee", [("c1", "Blue")]⟩ }
    customerInfo := fixtureCustomer }

/-- Three stored orders: two share the identifier `a@b.c`, the third uses a
phone number. -/
def c3Db : OrderDb :=
  ⟨[⟨1, "SKU-1", "Tee", 3, 5, 15, "a@b.c", "PK", "Jo", "Doe", "Addr", "City",
     none, none, "Standard", "Confirmed", 100⟩,
    ⟨2, "SKU-2", "Polo", 1, 20, 20, "0300123", "PK", "Amy", "Lee", "Addr2",
     "Lahore", none, some "0300123", "Express", "Pending", 150⟩,
    ⟨3, "SKU-1", "Tee", 2, 5, 10, "a@b.c", "PK", "Joanna", "Doe", "Addr3",
     "City", none, none, "Standard", "Shipped", 200⟩], []⟩

/-- Two stored orders with distinct ids, plus one line item. -/
def c7Db : OrderDb :=
  ⟨[⟨1, "SKU-1", "Tee", 3, 5, 15, "a@b.c", "PK", "Jo", "Doe", "Addr", "City",
     none, none, "Standard", "Confirmed", 100⟩,
    ⟨2, "SKU-2", "Polo", 1, 20, 20, "0300123", "PK", "Amy", "Lee", "Addr2",
     "Lahore", none, some "0300123", "Express", "Pending", 150⟩],
   [⟨1, "c1", "Blue", "M", 3⟩]⟩

/-- A well-formed email request. -/
def c8Email : EmailRequest := ⟨"a@b.c", "Hi", "Body"⟩

/-! Helper lemmas shared by the claim theorems. -/

theorem init_le_foldl_max (l : List Nat) (a : Nat) : a ≤ l.foldl max a := by
  induction l generalizing a with
  | nil => exact le_refl a
  | cons c cs ih =>
    exact le_trans (le_max_left a c) (ih (max a c))

theorem le_foldl_max_of_mem :
    ∀ (l : List Nat) {x : Nat}, x ∈ l → ∀ (a : Nat), x ≤ l.foldl max a := by
  intro l
  induction l with
  | nil => intro x hx a; cases hx
  | cons c cs ih =>
    intro x hx a
    rw [List.foldl_cons]
    rcases List.mem_cons.mp hx with h | h
    · subst h
      exact le_trans (le_max_right a x) (init_le_foldl_max cs (max a x))
    · exact ih h (max a c)

theorem foldl_max_eq_init_or_mem (l : List Nat) (a : Nat) :
    l.foldl max a = a ∨ l.foldl max a ∈ l := by
  induction l generalizing a with
  | nil => exact Or.inl rfl
  | cons c cs ih =>
    rw [List.foldl_cons]
    rcases ih (max a c) with h | h
    · rcases max_choice a c with hm | hm
      · exact Or.inl (by rw [h, hm])
      · exact Or.inr (by rw [h, hm]; exact List.mem_cons_self _ _)
    · exact Or.inr (List.mem_cons_of_mem _ h)

theorem foldl_max_zero_mem {l : List Nat} (h : l ≠ []) : l.foldl max 0 ∈ l := by
  rcases foldl_max_eq_init_or_mem l 0 with h0 | hm
  · cases l with
    | nil => exact absurd rfl h
    | cons c cs =>
      have hc : c ≤ (c :: cs).foldl max 0 :=
        le_foldl_max_of_mem (c :: cs) (List.mem_cons_self c cs) 0
      rw [h0] at hc
      have : c = 0 := Nat.le_zero.mp hc
      rw [h0, ← this]
      exact List.mem_cons_self c cs
  · exact hm

theorem dictLast_eq_some_mem {pairs : List (String × String)} {k nm : String}
    (h : dictLast pairs k = some nm) : (k, nm) ∈ pairs := by
  unfold dictLast at h
  obtain ⟨p, hp, hpnm⟩ := Option.map_eq_some'.mp h
  have hp1 : p.1 = k := by simpa using List.find?_some hp
  have hpmem : p ∈ pairs := List.mem_reverse.mp (List.mem_of_find?_eq_some hp)
  have : (k, nm) = p := by
    cases p
    simp only at hp1 hpnm
    rw [hp1, hpnm]
  rw [this]
  exact hpmem

theorem dictLast_eq_none_iff {pairs : List (String × String)} {k : String} :
    dictLast pairs k = none ↔ ∀ nm, (k, nm) ∉ pairs := by
  unfold dictLast
  rw [Option.map_eq_none', List.find?_eq_none]
  constructor
  · intro h nm hmem
    exact h (k, nm) (List.mem_reverse.mpr hmem) (by simp)
  · intro h p hp hpk
    have hp1 : p.1 = k := by simpa using hpk
    have : (k, p.2) ∈ pairs := by
      have := List.mem_reverse.mp hp
      rwa [show (k, p.2) = p from by cases p; simp only at hp1; rw [hp1]]
    exact h p.2 this

/-! Claim theorems. -/

/-- C1.  The claim states that a product-creation request whose parsed
min_quantities and prices lists have different lengths is rejected with a
400-class error and persists nothing.  The code has no such length check:
with `min_quantities = [1, 5]` and `prices = [10]` the tier loop raises an
uncaught `IndexError` (a 500-class failure) after the product row has
already been committed, and with `min_quantities = [1]` and
`prices = [10, 20]` the request succeeds outright, silently dropping the
surplus price and persisting rows. -/
theorem c1_create_product_mismatch_partial_persist :
    (create_product c1Form [1, 5] [10] [] [] [] emptyProductDb).1
        = HttpResult.pyException "IndexError"
    ∧ (create_product c1Form [1, 5] [10] [] [] [] emptyProductDb).2.products
        = [{ id := 1, title := "Tee", sku := "SKU-1", gender := "Men",
             category := "Shirts", color := "Blue", description := none }]
    ∧ (create_product c1Form [1, 5] [10] [] [] [] emptyProductDb).2.tiers = []
    ∧ (create_product c1Form [1] [10, 20] [] [] [] emptyProductDb).1
        = HttpResult.ok
            { id := 1, title := "Tee", sku := "SKU-1", gender := "Men",
              category := "Shirts", color := "Blue", description := none }
    ∧ (create_product c1Form [1] [10, 20] [] [] [] emptyProductDb).2.tiers
        = [{ product_id := 1, min_quantity := 1, price := 10 }] := by
  refine ⟨rfl, rfl, rfl, rfl, rfl⟩

/-- C2.  The claim states that the order-list response contains a
synthesized `invoice` field.  The handler does compute the string
`INV-` plus the zero-padded id and attaches it to the in-memory ORM
object, but the declared response model `OrderOut` has no `invoice` field,
so the serialized response consists of exactly the persisted fields and
the nested items, with no invoice anywhere. -/
theorem c2_read_orders_invoice_dropped :
    (read_orders_handler c2Db).map Prod.snd = ["INV-000001"]
    ∧ read_orders_response c2Db
        = [{ id := 1, product_sku := "SKU-1", product_title := "Tee",
             total_quantity := 3, unit_price_tier := 5, grand_total := 15,
             email_or_phone := "a@b.c", first_name := "Jo",
             last_name := "Doe", address := "Addr", city := "City",
             country := "PK", status := "Confirmed", created_at := 100,
             items := [{ color_id := "c1", color_name := "Blue",
                         size := "M", quantity := 3 }] }] := by
  exact ⟨rfl, rfl⟩

/-- C4.  The claim states that every persisted review row has a rating in
the interval from 1 to 5.  In fact no review row is ever persisted: after
the product-existence check the handler evaluates `review.country`, an
attribute the `ReviewCreate` schema does not define, so every request for
an existing product raises `AttributeError` (surfaced as a 500) before the
insert, and neither the schema nor the table enforces any rating bound
that would apply if the insert were reached. -/
theorem c4_create_review_always_raises :
    (create_review 1 c4Review c4Db).1 = HttpResult.pyException "AttributeError"
    ∧ (create_review 1 c4Review c4Db).2 = c4Db
    ∧ ∀ (pid : Nat) (review : ReviewCreate) (db : ProductDb),
        (create_review pid review db).2.reviews = db.reviews := by
  refine ⟨rfl, rfl, fun pid review db => ?_⟩
  unfold create_review
  split <;> rfl

/-- C8.  For every request and every transport outcome, the helper returns
a structured result whose status is either `success` or `error` (it never
propagates the transport exception), and the endpoint raises a 500 error
exactly when the status is `error`, otherwise returning the helper result
unchanged. -/
theorem c8_send_email_spec (email : EmailRequest) (outcome : SmtpOutcome) :
    ((send_email email.to email.subject email.body outcome).status = "success"
      ∨ (send_email email.to email.subject email.body outcome).status = "error")
    ∧ ((send_email email.to email.subject email.body outcome).status = "error" →
        send_email_endpoint email outcome
          = HttpResult.httpError 500
              (send_email email.to email.subject email.body outcome).message)
    ∧ ((send_email email.to email.subject email.body outcome).status ≠ "error" →
        send_email_endpoint email outcome
          = HttpResult.ok (send_email email.to email.subject email.body outcome))
    ∧ (∀ code detail,
        send_email_endpoint email outcome = HttpResult.httpError code detail →
        code = 500
        ∧ (send_email email.to email.subject email.body outcome).status
            = "error") := by
  cases outcome with
  | sent =>
    refine ⟨Or.inl rfl, fun h => ?_, fun _ => rfl, fun code detail h => ?_⟩
    · simp [send_email] at h
    · simp [send_email_endpoint, send_email] at h
  | raised e =>
    refine ⟨Or.inr rfl, fun _ => rfl, fun h => absurd rfl h,
      fun code detail h => ?_⟩
    refine ⟨?_, rfl⟩
    simp only [send_email_endpoint, send_email] at h
    simp at h
    exact h.1.symm

/-- Witness for C8 at a concrete request and a failing transport. -/
theorem c8_send_email_witness :
    (send_email "a@b.c" "Hi" "Body" (SmtpOutcome.raised "boom")).status
        = "error"
    ∧ send_email_endpoint c8Email (SmtpOutcome.raised "boom")
        = HttpResult.httpError 500 "boom" :=
  ⟨rfl, (c8_send_email_spec c8Email (SmtpOutcome.raised "boom")).2.1 rfl⟩

/-- C9.  The stored financial fields of a submitted order are the supplied
values taken verbatim: the grand total is the supplied subtotal, the total
quantity the supplied totalQuantity, the unit price tier the supplied
unitPrice, and the sku the supplied productDetails sku.  The theorem holds
for every request whatsoever, in particular for requests whose totals
disagree with the cart lines and whose sku matches no catalog product, and
`submit_order` takes no product table at all, so no existence check can
occur. -/
theorem c9_submit_order_verbatim (request : OrderSubmissionRequest)
    (now : Nat) (db : OrderDb) :
    (submit_order request now db).1.grand_total
        = request.orderDetails.subtotal
    ∧ (submit_order request now db).1.total_quantity
        = request.orderDetails.totalQuantity
    ∧ (submit_order request now db).1.unit_price_tier
        = request.orderDetails.unitPrice
    ∧ (submit_order request now db).1.product_sku
        = request.orderDetails.productDetails.sku
    ∧ (submit_order request now db).2.orders
        = db.orders ++ [(submit_order request now db).1] :=
  ⟨rfl, rfl, rfl, rfl, rfl⟩

/-- C10.  The gender and category filters are each applied only when the
corresponding parameter is truthy: the combined query filters by the
conjunction of the two active conditions, an absent parameter pair returns
every product, and an empty-string pair does too. -/
theorem c10_read_specific_products_spec (gender category : Option String)
    (db : ProductDb) :
    read_specific_products gender category db
      = db.products.filter (fun p =>
          (!pyTruthy gender || p.gender == gender.getD "")
          && (!pyTruthy category || p.category == category.getD ""))
    ∧ read_specific_products none none db = db.products
    ∧ read_specific_products (some "") (some "") db = db.products := by
  refine ⟨?_, by simp [read_specific_products, pyTruthy],
    by simp [read_specific_products, pyTruthy]⟩
  unfold read_specific_products
  cases hg : pyTruthy gender <;> cases hc : pyTruthy category <;>
    simp only [Bool.not_true, Bool.not_false, Bool.false_or, Bool.true_or,
      if_true, if_false, Bool.and_true, Bool.true_and]
  · simp [List.filter_true]
  · rfl
  · rfl
  · rw [List.filter_filter]
    apply List.filter_congr
    intro p _
    exact Bool.and_comm _ _

/-- C5.  Submitting an order inserts exactly one order row, whose status is
the constant `Confirmed`, and exactly one item row per cart line; each item
row carries the cart line's color id, size and quantity, and its color
name is the display name the supplied color map assigns to the id when the
id is a key of the map, and the raw id value otherwise. -/
theorem c5_submit_order_spec (request : OrderSubmissionRequest) (now : Nat)
    (db : OrderDb) :
    (submit_order request now db).2.orders
        = db.orders ++ [(submit_order request now db).1]
    ∧ (submit_order request now db).1.status = "Confirmed"
    ∧ ∃ newRows,
        (submit_order request now db).2.order_items
            = db.order_items ++ newRows
        ∧ List.Forall₂ (fun (item : CartItemIn) (row : OrderItem) =>
            row.order_id = (submit_order request now db).1.id
            ∧ row.color_id = item.colorId
            ∧ row.size = item.size
            ∧ row.quantity = item.qty
            ∧ ((∃ nm, (item.colorId, nm)
                  ∈ request.orderDetails.productDetails.colors) →
                (item.colorId, row.color_name)
                  ∈ request.orderDetails.productDetails.colors)
            ∧ ((∀ nm, (item.colorId, nm)
                  ∉ request.orderDetails.productDetails.colors) →
                row.color_name = item.colorId))
          request.orderDetails.cartItems newRows := by
  refine ⟨rfl, rfl, ?_⟩
  refine ⟨submittedRows request db, rfl, ?_⟩
  unfold submittedRows
  rw [List.forall₂_map_right_iff, List.forall₂_same]
  intro item _
  refine ⟨rfl, rfl, rfl, rfl, fun hex => ?_, fun hnone => ?_⟩
  · obtain ⟨nm, hnm⟩ := hex
    show (item.colorId,
      colorMapGet request.orderDetails.productDetails.colors item.colorId)
        ∈ request.orderDetails.productDetails.colors
    unfold colorMapGet
    cases hdl : dictLast request.orderDetails.productDetails.colors
        item.colorId with
    | none => exact absurd hnm (dictLast_eq_none_iff.mp hdl nm)
    | some nm2 =>
      have hmem := dictLast_eq_some_mem hdl
      simpa using hmem
  · show colorMapGet request.orderDetails.productDetails.colors item.colorId
        = item.colorId
    unfold colorMapGet
    cases hdl : dictLast request.orderDetails.productDetails.colors
        item.colorId with
    | none => rfl
    | some nm2 => exact absurd (dictLast_eq_some_mem hdl) (hnone nm2)

/-- Witness for C5 at a concrete submission with one mapped and one
unmapped color id. -/
theorem c5_submit_order_witness :
    (submit_order c5Request 100 ⟨[], []⟩).1.status = "Confirmed"
    ∧ (submit_order c5Request 100 ⟨[], []⟩).2.orders.length = 1 := by
  have h := c5_submit_order_spec c5Request 100 ⟨[], []⟩
  refine ⟨h.2.1, ?_⟩
  rw [h.1]
  rfl

/-- One non-matching prefix step of `setStatusFirst` changes nothing, and
under distinct ids the matching row is replaced by the same row with only
its status overwritten. -/
theorem setStatusFirst_frame (order_id : Nat) (new_status : String)
    (l : List Order) (h : (l.map Order.id).Nodup) :
    List.Forall₂ (fun before after =>
        (before.id = order_id → after = { before with status := new_status })
        ∧ (before.id ≠ order_id → after = before))
      l (setStatusFirst order_id new_status l) := by
  induction l with
  | nil => exact List.Forall₂.nil
  | cons o os ih =>
    rw [List.map_cons, List.nodup_cons] at h
    simp only [setStatusFirst]
    split
    next hb =>
      have ho : o.id = order_id := beq_iff_eq.mp hb
      refine List.Forall₂.cons ⟨fun _ => rfl, fun hne => absurd ho hne⟩ ?_
      rw [List.forall₂_same]
      intro x hx
      refine ⟨fun hxe => ?_, fun _ => rfl⟩
      exfalso
      have : o.id ∈ os.map Order.id := by
        rw [ho, ← hxe]
        exact List.mem_map_of_mem Order.id hx
      exact absurd this h.1
    next hb =>
      have ho : ¬o.id = order_id := by simpa using hb
      exact List.Forall₂.cons ⟨fun he => absurd he ho, fun _ => rfl⟩ (ih h.2)

/-- After `setStatusFirst`, under distinct ids, any row bearing the target
id reads back the new status. -/
theorem setStatusFirst_read (order_id : Nat) (new_status : String)
    (l : List Order) (h : (l.map Order.id).Nodup) :
    ∀ o2 ∈ setStatusFirst order_id new_status l, o2.id = order_id →
      o2.status = new_status := by
  induction l with
  | nil => intro o2 h2; cases h2
  | cons o os ih =>
    rw [List.map_cons, List.nodup_cons] at h
    simp only [setStatusFirst]
    split
    next hb =>
      have ho : o.id = order_id := beq_iff_eq.mp hb
      intro o2 h2 hid
      rcases List.mem_cons.mp h2 with h2 | h2
      · rw [h2]
      · exfalso
        have : o.id ∈ os.map Order.id := by
          rw [ho, ← hid]
          exact List.mem_map_of_mem Order.id h2
        exact absurd this h.1
    next hb =>
      have ho : ¬o.id = order_id := by simpa using hb
      intro o2 h2 hid
      rcases List.mem_cons.mp h2 with h2 | h2
      · exfalso
        rw [h2] at hid
        exact absurd hid ho
      · exact ih h.2 o2 h2 hid

/-- C7.  For an existing order id, the status update returns the id and the
new status, replaces exactly the status field of that order (every other
field, the creation timestamp included, and every other order row and all
item rows are unchanged), and a subsequent read of that order returns the
new status; for an absent id it fails with a 404 and leaves the store
untouched. -/
theorem c7_update_order_status_spec (db : OrderDb) (order_id : Nat)
    (new_status : String) (hids : (db.orders.map Order.id).Nodup) :
    ((∃ o ∈ db.orders, o.id = order_id) →
        (update_order_status order_id new_status db).1
          = HttpResult.ok
              { message := "Status updated successfully",
                id := order_id, status := new_status }
        ∧ List.Forall₂ (fun before after =>
            (before.id = order_id →
              after = { before with status := new_status })
            ∧ (before.id ≠ order_id → after = before))
          db.orders (update_order_status order_id new_status db).2.orders
        ∧ (update_order_status order_id new_status db).2.order_items
            = db.order_items
        ∧ ∀ o2 ∈ (update_order_status order_id new_status db).2.orders,
            o2.id = order_id → o2.status = new_status)
    ∧ ((∀ o ∈ db.orders, o.id ≠ order_id) →
        (update_order_status order_id new_status db).1
          = HttpResult.httpError 404 "Order not found"
        ∧ (update_order_status order_id new_status db).2 = db) := by
  by_cases hany : db.orders.any (fun o => o.id == order_id) = true
  · constructor
    · intro _
      unfold update_order_status
      rw [if_pos hany]
      exact ⟨rfl, setStatusFirst_frame _ _ _ hids, rfl,
        setStatusFirst_read _ _ _ hids⟩
    · intro hall
      exfalso
      obtain ⟨o, ho, hid⟩ := List.any_eq_true.mp hany
      exact hall o ho (beq_iff_eq.mp hid)
  · constructor
    · rintro ⟨o, ho, hid⟩
      exfalso
      exact hany (List.any_eq_true.mpr ⟨o, ho, beq_iff_eq.mpr hid⟩)
    · intro _
      unfold update_order_status
      rw [if_neg hany]
      exact ⟨rfl, rfl⟩

/-- Witness for C7: updating an existing order succeeds and leaves items
alone; updating an absent id returns 404 and changes nothing. -/
theorem c7_update_order_status_witness :
    (update_order_status 1 "Shipped" c7Db).1
      = HttpResult.ok
          { message := "Status updated successfully", id := 1,
            status := "Shipped" }
    ∧ (update_order_status 1 "Shipped" c7Db).2.order_items
        = c7Db.order_items
    ∧ (update_order_status 9 "Shipped" c7Db).1
        = HttpResult.httpError 404 "Order not found"
    ∧ (update_order_status 9 "Shipped" c7Db).2 = c7Db := by
  have h1 := (c7_update_order_status_spec c7Db 1 "Shipped" (by decide)).1
    (by decide)
  have h2 := (c7_update_order_status_spec c7Db 9 "Shipped" (by decide)).2
    (by decide)
  exact ⟨h1.1, h1.2.2.1, h2.1, h2.2⟩

theorem lexLikePattern_escape_cons (c : Char) (ps : List Char) :
    lexLikePattern ('\\' :: c :: ps) = LikeTok.lit c :: lexLikePattern ps :=
  rfl

theorem lexLikePattern_pct (ps : List Char) :
    lexLikePattern ('%' :: ps) = LikeTok.anyRun :: lexLikePattern ps := by
  rw [lexLikePattern.eq_def]
  simp

theorem lexLikePattern_plain (c : Char) (ps : List Char) (h1 : c ≠ '\\')
    (h2 : c ≠ '%') (h3 : c ≠ '_') :
    lexLikePattern (c :: ps) = LikeTok.lit c :: lexLikePattern ps := by
  rw [lexLikePattern.eq_def]
  simp only []
  rw [if_neg h1, if_neg h2, if_neg h3]

theorem lexLikePattern_escapeWildcards (k : List Char) (hk : '\\' ∉ k) :
    lexLikePattern (escapeWildcards k ++ ['%'])
      = k.map LikeTok.lit ++ [LikeTok.anyRun] := by
  induction k with
  | nil => rfl
  | cons c cs ih =>
    have hc : c ≠ '\\' := fun h => hk (by rw [← h]; exact List.mem_cons_self c cs)
    have hcs : '\\' ∉ cs := fun h => hk (List.mem_cons_of_mem c h)
    by_cases hw : c = '%' ∨ c = '_'
    · simp only [escapeWildcards, if_pos hw, List.cons_append,
        lexLikePattern_escape_cons, List.map_cons, ih hcs]
    · have h2 : c ≠ '%' := fun h => hw (Or.inl h)
      have h3 : c ≠ '_' := fun h => hw (Or.inr h)
      simp only [escapeWildcards, if_neg hw, List.cons_append, List.map_cons]
      rw [lexLikePattern_plain c _ hc h2 h3, ih hcs]

theorem likeMatch_anyRun_iff (ts : List LikeTok) (s : List Char) :
    likeMatch (LikeTok.anyRun :: ts) s = true
      ↔ ∃ t, t <:+ s ∧ likeMatch ts t = true := by
  simp only [likeMatch, List.any_eq_true]
  constructor
  · rintro ⟨t, ht, hm⟩
    exact ⟨t, (List.mem_tails _ _).mp ht, hm⟩
  · rintro ⟨t, ht, hm⟩
    exact ⟨t, (List.mem_tails _ _).mpr ht, hm⟩

theorem likeMatch_lits_anyRun (k : List Char) :
    ∀ (t : List Char),
      likeMatch (k.map LikeTok.lit ++ [LikeTok.anyRun]) t = true
        ↔ (k.map Char.toLower) <+: (t.map Char.toLower) := by
  induction k with
  | nil =>
    intro t
    simp only [List.map_nil, List.nil_append]
    rw [likeMatch_anyRun_iff]
    constructor
    · intro _
      exact List.nil_prefix
    · intro _
      exact ⟨[], List.nil_suffix, rfl⟩
  | cons c cs ih =>
    intro t
    cases t with
    | nil =>
      simp only [List.map_cons, List.cons_append]
      constructor
      · intro hcontra
        exact absurd hcontra (by simp [likeMatch])
      · intro hcontra
        exact absurd hcontra (by simp)
    | cons d t2 =>
      simp only [List.map_cons, List.cons_append, likeMatch,
        Bool.and_eq_true, beq_iff_eq, List.cons_prefix_cons]
      exact and_congr_right (fun _ => ih t2)

theorem titleMatches_substring_iff (product_name title : String)
    (h : '\\' ∉ product_name.toList) :
    titleMatches product_name title = true
      ↔ (product_name.toList.map Char.toLower)
          <:+: (title.toList.map Char.toLower) := by
  unfold titleMatches searchLikePattern
  rw [lexLikePattern_pct, lexLikePattern_escapeWildcards _ h,
    likeMatch_anyRun_iff]
  constructor
  · rintro ⟨t, hts, hm⟩
    rw [likeMatch_lits_anyRun] at hm
    exact List.infix_iff_prefix_suffix.mpr
      ⟨t.map Char.toLower, hm, List.IsSuffix.map _ hts⟩
  · intro hinf
    obtain ⟨T2, hpre, hsuf⟩ := List.infix_iff_prefix_suffix.mp hinf
    have hdrop := List.suffix_iff_eq_drop.mp hsuf
    refine ⟨title.toList.drop
      ((title.toList.map Char.toLower).length - T2.length),
      List.drop_suffix _ _, ?_⟩
    rw [likeMatch_lits_anyRun, List.map_drop, ← hdrop]
    exact hpre

/-- C6 (amended).  For every search string that contains no backslash, the
title search returns exactly the products whose lowered title contains the
lowered search string as a literal substring, in store order, capped at
the supplied limit; the wildcard characters percent and underscore in the
search string are escaped and match only themselves. -/
theorem c6_search_literal_substring (db : ProductDb) (product_name : String)
    (limit : Nat) (h : '\\' ∉ product_name.toList) :
    search_product_by_name product_name db limit
      = (db.products.filter (fun p =>
          decide ((product_name.toList.map Char.toLower)
            <:+: (p.title.toList.map Char.toLower)))).take limit := by
  unfold search_product_by_name
  congr 1
  apply List.filter_congr
  intro p _
  by_cases hinf : (product_name.toList.map Char.toLower)
      <:+: (p.title.toList.map Char.toLower)
  · rw [decide_eq_true hinf]
    exact (titleMatches_substring_iff product_name p.title h).mpr hinf
  · rw [decide_eq_false hinf]
    cases hb : titleMatches product_name p.title
    · rfl
    · exact absurd ((titleMatches_substring_iff product_name p.title h).mp hb)
        hinf

/-- Counterexample to C6 as stated: the stored product's title contains the
search string as a (case-insensitive) literal substring, yet the search
returns nothing, because the backslash in the search string is passed
through unescaped and acts as the LIKE escape character. -/
theorem c6_search_backslash_counterexample :
    ("back\\slash".toList.map Char.toLower)
        <:+: ("back\\slash".toList.map Char.toLower)
    ∧ c6CexProduct.title = "back\\slash"
    ∧ c6CexProduct ∈ c6CexDb.products
    ∧ search_product_by_name "back\\slash" c6CexDb 50 = [] := by
  refine ⟨List.infix_refl _, rfl, List.mem_cons_self _ _, ?_⟩
  rfl

/-- Witness for C6 at a backslash-free search string containing a percent
sign. -/
theorem c6_search_witness :
    '\\' ∉ "100%".toList
    ∧ search_product_by_name "100%" c6WitnessDb 50
        = (c6WitnessDb.products.filter (fun p =>
            decide (("100%".toList.map Char.toLower)
              <:+: (p.title.toList.map Char.toLower)))).take 50 :=
  ⟨by decide, c6_search_literal_substring c6WitnessDb "100%" 50 (by decide)⟩

theorem mem_customerGroup_iff {db : OrderDb} {k : String} {o : Order} :
    o ∈ customerGroup db k ↔ o ∈ db.orders ∧ o.email_or_phone = k := by
  simp [customerGroup, List.mem_filter]

theorem customerGroup_ne_nil {db : OrderDb} {k : String}
    (hk : k ∈ customerKeys db) : customerGroup db k ≠ [] := by
  unfold customerKeys at hk
  rw [List.mem_dedup] at hk
  obtain ⟨o, ho, hoe⟩ := List.mem_map.mp hk
  exact List.ne_nil_of_mem (mem_customerGroup_iff.mpr ⟨ho, hoe⟩)

theorem exists_latest_in_group {db : OrderDb} {k : String}
    (hk : k ∈ customerKeys db) :
    ∃ o ∈ customerGroup db k, o.id = latestOrderId db k := by
  have hne : (customerGroup db k).map Order.id ≠ [] := by
    intro h
    exact customerGroup_ne_nil hk (List.map_eq_nil_iff.mp h)
  obtain ⟨o, ho, hoid⟩ := List.mem_map.mp (foldl_max_zero_mem hne)
  exact ⟨o, ho, hoid⟩

theorem exists_lastOrder_in_group {db : OrderDb} {k : String}
    (hk : k ∈ customerKeys db) :
    ∃ o ∈ customerGroup db k, o.created_at = groupLastOrder db k := by
  have hne : (customerGroup db k).map Order.created_at ≠ [] := by
    intro h
    exact customerGroup_ne_nil hk (List.map_eq_nil_iff.mp h)
  obtain ⟨o, ho, hoc⟩ := List.mem_map.mp (foldl_max_zero_mem hne)
  exact ⟨o, ho, hoc⟩

theorem created_le_groupLastOrder {db : OrderDb} {k : String} {o : Order}
    (ho : o ∈ customerGroup db k) :
    o.created_at ≤ groupLastOrder db k :=
  le_foldl_max_of_mem ((customerGroup db k).map Order.created_at)
    (List.mem_map_of_mem Order.created_at ho) 0

theorem id_le_latestOrderId {db : OrderDb} {k : String} {o : Order}
    (ho : o ∈ customerGroup db k) :
    o.id ≤ latestOrderId db k :=
  le_foldl_max_of_mem ((customerGroup db k).map Order.id)
    (List.mem_map_of_mem Order.id ho) 0

theorem find_latest_row {db : OrderDb} {k : String}
    (hk : k ∈ customerKeys db) (hids : (db.orders.map Order.id).Nodup) :
    ∃ row, db.orders.find? (fun o => o.id == latestOrderId db k) = some row
      ∧ row ∈ customerGroup db k ∧ row.id = latestOrderId db k := by
  obtain ⟨o, ho, hid⟩ := exists_latest_in_group hk
  have hoOrd : o ∈ db.orders := (mem_customerGroup_iff.mp ho).1
  cases hfind : db.orders.find? (fun o2 => o2.id == latestOrderId db k) with
  | none =>
    exfalso
    exact absurd (beq_iff_eq.mpr hid) (List.find?_eq_none.mp hfind o hoOrd)
  | some row =>
    have hrmem : row ∈ db.orders := List.mem_of_find?_eq_some hfind
    have hrid : row.id = latestOrderId db k := by
      have hpred := List.find?_some hfind
      simpa using hpred
    have hro : row = o :=
      List.inj_on_of_nodup_map hids hrmem hoOrd (by rw [hrid, hid])
    refine ⟨row, rfl, ?_, hrid⟩
    rw [hro]
    exact ho

/-- C3.  The customer aggregation returns exactly one entry per distinct
email-or-phone identifier; each entry's totalSpent is the sum of the
group's grand totals and its lastOrder the group's maximal creation
timestamp; the display name, phone, country and city values are derived
from the group's order bearing the highest id; the entry carries an email
exactly when the identifier contains an at sign; and the list is ordered
by lastOrder descending. -/
theorem c3_read_customers_spec (db : OrderDb)
    (hids : (db.orders.map Order.id).Nodup) :
    ((read_customers db).map CustomerOut.id).Perm (customerKeys db)
    ∧ List.Sorted lastOrderDescRel (read_customers db)
    ∧ ∀ c ∈ read_customers db,
        c.totalSpent = ((db.orders.filter
            (fun o => o.email_or_phone == c.id)).map Order.grand_total).sum
        ∧ (∀ o ∈ db.orders, o.email_or_phone = c.id →
            o.created_at ≤ c.lastOrder)
        ∧ (∃ o ∈ db.orders, o.email_or_phone = c.id
            ∧ o.created_at = c.lastOrder)
        ∧ (∃ o ∈ db.orders, o.email_or_phone = c.id
            ∧ (∀ o2 ∈ db.orders, o2.email_or_phone = c.id → o2.id ≤ o.id)
            ∧ c.name = customerName o c.id
            ∧ c.phone = customerPhone o c.id
            ∧ c.country = o.country
            ∧ c.city = o.city)
        ∧ (c.email = some c.id ↔ c.id.contains '@' = true)
        ∧ (c.email = none ↔ c.id.contains '@' = false) := by
  have hperm := List.perm_insertionSort lastOrderDescRel
    ((customerKeys db).map (customerEntry db))
  refine ⟨?_, ?_, ?_⟩
  · have h1 : ((read_customers db).map CustomerOut.id).Perm
        (((customerKeys db).map (customerEntry db)).map CustomerOut.id) :=
      List.Perm.map _ hperm
    have h2 : ((customerKeys db).map (customerEntry db)).map CustomerOut.id
        = customerKeys db := by
      rw [List.map_map]
      have h3 : ∀ k ∈ customerKeys db,
          (CustomerOut.id ∘ customerEntry db) k = id k := fun k _ => rfl
      rw [List.map_congr_left h3, List.map_id]
    rw [h2] at h1
    exact h1
  · exact List.sorted_insertionSort lastOrderDescRel _
  · intro c hc
    have hcmem : c ∈ (customerKeys db).map (customerEntry db) :=
      hperm.mem_iff.mp hc
    obtain ⟨k, hk, hck⟩ := List.mem_map.mp hcmem
    subst hck
    obtain ⟨row, hfind, hrowg, hrowid⟩ := find_latest_row hk hids
    have hrowOrd : row ∈ db.orders := (mem_customerGroup_iff.mp hrowg).1
    have hrowk : row.email_or_phone = k := (mem_customerGroup_iff.mp hrowg).2
    have hname : (customerEntry db k).name = customerName row k := by
      simp only [customerEntry, hfind, Option.getD_some]
    have hphone : (customerEntry db k).phone = customerPhone row k := by
      simp only [customerEntry, hfind, Option.getD_some]
    have hcountry : (customerEntry db k).country = row.country := by
      simp only [customerEntry, hfind, Option.getD_some]
    have hcity : (customerEntry db k).city = row.city := by
      simp only [customerEntry, hfind, Option.getD_some]
    refine ⟨rfl, ?_, ?_, ?_, ?_, ?_⟩
    · intro o ho hoe
      exact created_le_groupLastOrder (mem_customerGroup_iff.mpr ⟨ho, hoe⟩)
    · obtain ⟨o, ho, hoc⟩ := exists_lastOrder_in_group hk
      exact ⟨o, (mem_customerGroup_iff.mp ho).1,
        (mem_customerGroup_iff.mp ho).2, hoc⟩
    · refine ⟨row, hrowOrd, hrowk, ?_, hname, hphone, hcountry, hcity⟩
      intro o2 ho2 ho2e
      have h4 := id_le_latestOrderId (mem_customerGroup_iff.mpr ⟨ho2, ho2e⟩)
      rw [hrowid]
      exact h4
    · show customerEmail k = some k ↔ k.contains '@' = true
      unfold customerEmail
      cases hat : k.contains '@' <;> simp [hat]
    · show customerEmail k = none ↔ k.contains '@' = false
      unfold customerEmail
      cases hat : k.contains '@' <;> simp [hat]

/-- Witness for C3 on a store of three orders, two of which share an email
identifier: the aggregation yields one entry per identifier, sorted by
most recent order, with the shared email's totals summed. -/
theorem c3_read_customers_witness :
    ((read_customers c3Db).map CustomerOut.id).Perm (customerKeys c3Db)
    ∧ List.Sorted lastOrderDescRel (read_customers c3Db)
    ∧ (read_customers c3Db).map CustomerOut.id = ["a@b.c", "0300123"]
    ∧ (read_customers c3Db).map CustomerOut.totalSpent = [25, 20]
    ∧ (read_customers c3Db).map CustomerOut.lastOrder = [200, 150] := by
  have h := c3_read_customers_spec c3Db (by decide)
  refine ⟨h.1, h.2.1, rfl, ?_, rfl⟩
  show ([(15 : ℚ) + (10 + 0), 20 + 0] : List ℚ) = [25, 20]
  norm_num

end Wholesale
